import Mathlib

/-
Shallow embedding of the notice-search tool server (src/index.ts).

The program is a single-file MCP-style tool server with four parts:
  * an argument schema (SearchNoticeArgsSchema, zod): query string of
    length at least 1, optional integer limit in [1, 50] defaulting to 5;
  * a remote search client (searchNotices): one POST to the fixed
    endpoint with a JSON body carrying only the query, a 10000 ms abort
    timer, status / shape checks on the response, truncation with
    slice(0, limit), and a catch clause mapping thrown values to errors;
  * a pure formatter (formatResults) producing the report string;
  * a call-tool handler wrapping everything in a try/catch that converts
    any thrown error into a content/error envelope.

Modelling conventions:
  * JS numbers are rationals (ℚ); integer-ness is den = 1.
  * A thrown JS Error is a JsError record (name, message); a thrown
    non-Error value is represented by its String(...) rendering.
  * The network is a parameter: a function from the outbound request the
    client builds to a RemoteOutcome describing how the fetch behaved
    (rejection, or a response with status and a parsed results field).
  * An optional field that the code leaves absent on an object literal is
    an Option that is none (the success envelope sets no isError field).
-/

/-- Metadata block of one notice record, as in the NoticeResult interface. -/
structure NoticeMetadata where
  organization : String
  region : String
  startupHistory : String
  deriving DecidableEq

/-- One search result record (interface NoticeResult in src/index.ts). -/
structure NoticeResult where
  title : String
  url : String
  score : ℚ
  metadata : NoticeMetadata
  deriving DecidableEq

/-- A JavaScript Error value: its name tag and its message. -/
structure JsError where
  name : String
  message : String
  deriving DecidableEq

/-- A JSON value supplied by the caller for one argument field.  The
validator only distinguishes strings, numbers, and everything else. -/
inductive ArgValue where
  | str (s : String)
  | num (q : ℚ)
  | other
  deriving DecidableEq

/-- The value found at the results field of the parsed response body;
undef stands for an absent field.  When the field is an array the code
casts its elements to NoticeResult without inspection, so an array in
this position carries NoticeResult records directly. -/
inductive ResultsField where
  | undef
  | null
  | bool (b : Bool)
  | num (q : ℚ)
  | str (s : String)
  | arrOf (rs : List NoticeResult)
  | obj
  deriving DecidableEq

/-- JavaScript truthiness of a results-field value (the check
!data.results in src/index.ts line 89). -/
def jsTruthy : ResultsField → Bool
  | .undef => false
  | .null => false
  | .bool b => b
  | .num q => decide (q ≠ 0)
  | .str s => decide (s ≠ "")
  | .arrOf _ => true
  | .obj => true

/-- Array.isArray on a results-field value. -/
def jsIsArray : ResultsField → Bool
  | .arrOf _ => true
  | _ => false

/-- The element list of an array value; dead default elsewhere. -/
def jsGetArr : ResultsField → List NoticeResult
  | .arrOf rs => rs
  | _ => []

/-- The outbound HTTP request assembled by the client: URL, method, the
content-type header, the JSON body fields, and the arming delay of the
cancellation timer attached to the call. -/
structure OutboundRequest where
  url : String
  method : String
  contentType : String
  bodyFields : List (String × String)
  timeoutMs : Nat
  deriving DecidableEq

/-- The request searchNotices issues (src/index.ts lines 67-77): POST to
the fixed endpoint, JSON body holding only the query, 10000 ms timer. -/
def buildRequest (query : String) : OutboundRequest :=
  { url := "https://ai.start-hub.kr/search"
    method := "POST"
    contentType := "application/json"
    bodyFields := [("query", query)]
    timeoutMs := 10000 }

/-- Outcome of parsing the response body: response.json() rejected with
an error, or produced a body whose results field holds this value. -/
inductive BodyOutcome where
  | jsonErr (e : JsError)
  | jsonOk (results : ResultsField)

/-- Outcome of the awaited fetch: rejection with an Error (an abort
surfaces as name AbortError), rejection with a non-Error value given by
its stringification, or an HTTP response. -/
inductive RemoteOutcome where
  | fetchErr (e : JsError)
  | fetchThrownValue (s : String)
  | response (status : Nat) (statusText : String) (body : BodyOutcome)

/-- response.ok: the status code lies in the 2xx range. -/
def respOk (status : Nat) : Bool :=
  decide (200 ≤ status) && decide (status < 300)

/-- Message thrown on abort (src/index.ts line 97). -/
def timeoutMsg : String := "요청 타임아웃: 검색 서버에서 응답이 없습니다"

/-- Message thrown on a malformed body (src/index.ts line 90). -/
def malformedMsg : String := "잘못된 응답 형식입니다"

/-- Message thrown on a non-2xx status (src/index.ts lines 82-84). -/
def statusMsg (status : Nat) (statusText : String) : String :=
  "API 응답 오류: " ++ toString status ++ " " ++ statusText

/-- Message wrapping a thrown non-Error value (src/index.ts line 101). -/
def wrapMsg (s : String) : String := "공고 검색 중 오류 발생: " ++ s

/-- What the try block of searchNotices can throw: a JS Error, or some
other value identified by its stringification. -/
inductive Thrown where
  | err (e : JsError)
  | value (s : String)

/-- The try block of searchNotices, given the limit and the outcome of
the fetch: status check, shape check on the results field, truncation. -/
def searchAttempt (limit : Nat) (o : RemoteOutcome) :
    Except Thrown (List NoticeResult) :=
  match o with
  | .fetchErr e => .error (.err e)
  | .fetchThrownValue s => .error (.value s)
  | .response status statusText body =>
    if !(respOk status) then
      .error (.err ⟨"Error", statusMsg status statusText⟩)
    else
      match body with
      | .jsonErr e => .error (.err e)
      | .jsonOk rv =>
        if !(jsTruthy rv) || !(jsIsArray rv) then
          .error (.err ⟨"Error", malformedMsg⟩)
        else
          .ok ((jsGetArr rv).take limit)

/-- The catch clause of searchNotices (src/index.ts lines 94-102): an
AbortError becomes the timeout error, any other Error is rethrown
unchanged, and a non-Error value is wrapped with a prefix. -/
def applyCatch : Thrown → JsError
  | .err e => if e.name = "AbortError" then ⟨"Error", timeoutMsg⟩ else e
  | .value s => ⟨"Error", wrapMsg s⟩

/-- The remote search client: build the one outbound request, hand it to
the network, and run the try/catch over the outcome. -/
def searchNotices (query : String) (limit : Nat)
    (fetch : OutboundRequest → RemoteOutcome) :
    Except JsError (List NoticeResult) :=
  (searchAttempt limit (fetch (buildRequest query))).mapError applyCatch

/-- Number.prototype.toFixed(1): sign split, then the integer nearest to
ten times the magnitude, ties picking the larger, printed with the last
digit after a decimal point. -/
def toFixed1 (x : ℚ) : String :=
  (if x < 0 then "-" else "") ++
  toString (⌊(if x < 0 then -x else x) * 10 + 1 / 2⌋ / 10) ++ "." ++
  toString (⌊(if x < 0 then -x else x) * 10 + 1 / 2⌋ % 10)

/-- The 60-character line of equals signs under the header. -/
def eqDivider : String := String.mk (List.replicate 60 '=')

/-- The 60-character line of dashes between result blocks. -/
def dashDivider : String := String.mk (List.replicate 60 '-')

/-- The separator joining result blocks (src/index.ts line 124). -/
def blockSep : String := "\n\n" ++ dashDivider ++ "\n"

/-- One rendered result block with its 1-based position (the template
literal in src/index.ts lines 116-122; it starts with a newline). -/
def renderBlock (pos : Nat) (r : NoticeResult) : String :=
  "\n[" ++ toString pos ++ "] " ++ r.title ++
  "\nURL: " ++ r.url ++
  "\n기관: " ++ r.metadata.organization ++
  "\n지역: " ++ r.metadata.region ++
  "\n대상: " ++ r.metadata.startupHistory ++
  "\n유사도: " ++ toFixed1 (r.score * 100) ++ "%"

/-- The empty-result one-liner (src/index.ts line 108). -/
def noResultsMsg (query : String) : String :=
  "\"" ++ query ++ "\"에 대한 검색 결과가 없습니다."

/-- The count header plus divider line (src/index.ts line 111). -/
def headerLine (count : Nat) : String :=
  "총 " ++ toString count ++ "개의 공고를 찾았습니다.\n" ++ eqDivider ++ "\n"

/-- formatResults (src/index.ts lines 106-127), translated clause by
clause: the map over results with its running index becomes a map over
the enumerated list. -/
def formatResults (results : List NoticeResult) (query : String) : String :=
  if results.length = 0 then
    noResultsMsg query
  else
    headerLine results.length ++
      String.intercalate blockSep
        (results.enum.map (fun p => renderBlock (p.1 + 1) p.2))

/-- The normalized argument record the schema produces. -/
structure SearchRequest where
  query : String
  limit : Nat
  deriving DecidableEq

/-- First-match lookup of a field in the caller-supplied argument object. -/
def lookupField : List (String × ArgValue) → String → Option ArgValue
  | [], _ => none
  | p :: rest, key => if p.1 = key then some p.2 else lookupField rest key

/-- Issues the schema reports for the query field: it must be present, a
string, and nonempty (zod string().min(1, custom message)). -/
def queryIssues : Option ArgValue → List String
  | none => ["query: Required"]
  | some (.str s) => if s.length = 0 then ["query: 검색어는 비워둘 수 없습니다"] else []
  | some _ => ["query: Expected string"]

/-- Issues the schema reports for the limit field: absent is fine (the
default applies); a number collects the int / min / max check failures;
anything else is a type issue (zod number().int().min(1).max(50)). -/
def limitIssues : Option ArgValue → List String
  | none => []
  | some (.num q) =>
    (if q.den ≠ 1 then ["limit: Expected integer, received float"] else []) ++
    (if q < 1 then ["limit: Number must be greater than or equal to 1"] else []) ++
    (if 50 < q then ["limit: Number must be less than or equal to 50"] else [])
  | some _ => ["limit: Expected number"]

/-- The limit the schema yields when its checks pass: the supplied
integer, or the default 5 when the field is absent. -/
def limitValue : Option ArgValue → Nat
  | some (.num q) => q.num.toNat
  | _ => 5

/-- The query string extracted on success; the fallback arm is dead code
because a non-string query always contributes an issue. -/
def queryString : Option ArgValue → String
  | some (.str s) => s
  | _ => ""

/-- SearchNoticeArgsSchema.safeParse: collect all field issues; with
none, produce the normalized record from the query and limit fields,
ignoring every other field of the argument object (zod strips unknown
keys). -/
def safeParse (args : List (String × ArgValue)) :
    Except (List String) SearchRequest :=
  let qv := lookupField args "query"
  let lv := lookupField args "limit"
  match queryIssues qv ++ limitIssues lv with
  | [] => .ok ⟨queryString qv, limitValue lv⟩
  | issues => .error issues

/-- A call-tool request: the tool name and the argument object. -/
structure CallRequest where
  name : String
  args : List (String × ArgValue)

/-- One content block of the response envelope. -/
structure ContentBlock where
  type : String
  text : String
  deriving DecidableEq

/-- The response envelope; isError is an optional field, none meaning
the object literal carries no such field. -/
structure ToolResult where
  content : List ContentBlock
  isError : Option Bool
  deriving DecidableEq

/-- Message for an unrecognized tool name (src/index.ts line 176). -/
def unknownToolMsg (name : String) : String := "알 수 없는 도구: " ++ name

/-- Message for a failed validation: the per-field issues, each already
rendered as path colon reason, joined with commas (lines 153-157). -/
def invalidArgsMsg (issues : List String) : String :=
  "잘못된 인자: " ++ String.intercalate ", " issues

/-- The try block of the call-tool handler: route on the tool name,
validate, search, format.  Every failure is a thrown JsError. -/
def runTool (req : CallRequest) (fetch : OutboundRequest → RemoteOutcome) :
    Except JsError String :=
  if req.name = "search_notices" then
    match safeParse req.args with
    | .error issues => .error ⟨"Error", invalidArgsMsg issues⟩
    | .ok parsed =>
      match searchNotices parsed.query parsed.limit fetch with
      | .error e => .error e
      | .ok results => .ok (formatResults results parsed.query)
  else
    .error ⟨"Error", unknownToolMsg req.name⟩

/-- The call-tool handler (src/index.ts lines 147-184): the try block
wrapped in the catch that turns any thrown error into an envelope whose
single text block is the error marker plus the message.  The success
envelope sets no isError field. -/
def handleCallTool (req : CallRequest)
    (fetch : OutboundRequest → RemoteOutcome) : ToolResult :=
  match runTool req fetch with
  | .ok text => ⟨[⟨"text", text⟩], none⟩
  | .error e => ⟨[⟨"text", "오류: " ++ e.message⟩], some true⟩

/-
Spec-side definition for the refinement claim about the formatter (C5):
blocks listed one per result, in input order, positions 1-based.  It is
compared with formatResults, which is translated from the source.
-/

/-- One block per result in input order, carrying the running 1-based
position; written from the words of the specification. -/
def specBlocks : Nat → List NoticeResult → List String
  | _, [] => []
  | pos, r :: rest => renderBlock pos r :: specBlocks (pos + 1) rest

/-- The formatter as the specification words it: the one-line no-result
message on an empty list, otherwise the count header followed by the
blocks in input order joined by the divider. -/
def formatResultsSpec (results : List NoticeResult) (query : String) : String :=
  match results with
  | [] => noResultsMsg query
  | _ :: _ =>
    headerLine results.length ++
      String.intercalate blockSep (specBlocks 1 results)

/- Helper lemmas. -/

/-- safeParse, with its let bindings spelled out. -/
theorem safeParse_eq (args : List (String × ArgValue)) :
    safeParse args =
      (match queryIssues (lookupField args "query") ++
          limitIssues (lookupField args "limit") with
        | [] => Except.ok ⟨queryString (lookupField args "query"),
                  limitValue (lookupField args "limit")⟩
        | issues => Except.error issues) := rfl

/-- With at least one field issue, safeParse reports an error. -/
theorem safeParse_error_of_issue (args : List (String × ArgValue))
    (h : queryIssues (lookupField args "query") ++
      limitIssues (lookupField args "limit") ≠ []) :
    ∃ issues, safeParse args = .error issues := by
  obtain ⟨a, rest, hc⟩ := List.exists_cons_of_ne_nil h
  exact ⟨a :: rest, by rw [safeParse_eq, hc]⟩

/-- Looking up a key that no field of the object carries yields none. -/
theorem lookupField_eq_none (l : List (String × ArgValue)) (key : String)
    (h : ∀ p ∈ l, p.1 ≠ key) : lookupField l key = none := by
  induction l with
  | nil => rfl
  | cons p rest ih =>
    have h1 : p.1 ≠ key := h p (List.mem_cons_self p rest)
    simp only [lookupField, if_neg h1]
    exact ih (fun x hx => h x (List.mem_cons_of_mem p hx))

/-- Two strings whose first characters disagree are distinct. -/
theorem stringNeOfHeadNe (s t : String)
    (h : s.data.head? ≠ t.data.head?) : s ≠ t :=
  fun he => h (by rw [he])

/-- Every status-error message starts with the letter A. -/
theorem statusMsg_head (status : Nat) (statusText : String) :
    (statusMsg status statusText).data.head? = some 'A' := by
  have h1 : "API 응답 오류: ".data = 'A' :: "PI 응답 오류: ".data := by decide
  simp [statusMsg, String.data_append, h1]

/-- Every wrapped-value message starts with the character 공. -/
theorem wrapMsg_head (s : String) :
    (wrapMsg s).data.head? = some '공' := by
  have h1 : "공고 검색 중 오류 발생: ".data = '공' :: "고 검색 중 오류 발생: ".data := by decide
  simp [wrapMsg, String.data_append, h1]

/-- The enumerated map of the source formatter produces exactly the
position-indexed block list of the spec-side formatter. -/
theorem enumFrom_map_renderBlock (rs : List NoticeResult) :
    ∀ n, (List.enumFrom n rs).map (fun p => renderBlock (p.1 + 1) p.2) =
      specBlocks (n + 1) rs := by
  induction rs with
  | nil => intro n; rfl
  | cons r rest ih =>
    intro n
    simp only [List.enumFrom_cons, List.map_cons, specBlocks]
    exact congrArg _ (ih (n + 1))

/-- specBlocks keeps every record: one block per result. -/
theorem specBlocks_length :
    ∀ (n : Nat) (rs : List NoticeResult), (specBlocks n rs).length = rs.length := by
  intro n rs
  induction rs generalizing n with
  | nil => rfl
  | cons r rest ih => simp [specBlocks, ih]

/- Claim theorems. -/

/-- C1: for every valid query and limit and every results array the
remote endpoint supplies on a 2xx response, searchNotices returns
exactly the first min(limit, length) entries: the result equals
slice(0, limit) of the remote array, its length is min(limit, length),
it never exceeds limit, and it is a prefix of the remote sequence with
the entries beyond limit discarded without an error. -/
theorem claim_C1_client_truncates (query : String) (limit : Nat)
    (fetch : OutboundRequest → RemoteOutcome)
    (status : Nat) (statusText : String) (rs : List NoticeResult)
    (hresp : fetch (buildRequest query) =
      .response status statusText (.jsonOk (.arrOf rs)))
    (hok : respOk status = true) :
    searchNotices query limit fetch = .ok (rs.take limit) ∧
    (rs.take limit).length = min limit rs.length ∧
    (rs.take limit).length ≤ limit ∧
    ∃ rest, rs = rs.take limit ++ rest := by
  refine ⟨?_, ?_, ?_, ⟨rs.drop limit, (List.take_append_drop limit rs).symm⟩⟩
  · simp [searchNotices, searchAttempt, hresp, hok, jsTruthy, jsIsArray,
      jsGetArr, Except.mapError]
  · simp [List.length_take]
  · simp [List.length_take]

/-- C1 witness: three supplied records, limit 2, first two returned. -/
theorem claim_C1_client_truncates_witness :
    searchNotices "Seoul accelerator" 2
      (fun _ => .response 200 "OK" (.jsonOk (.arrOf
        [⟨"Grant A", "http://x", 1, ⟨"Org", "Seoul", "2yr"⟩⟩,
         ⟨"Grant B", "http://y", 1, ⟨"Org2", "Busan", "3yr"⟩⟩,
         ⟨"Grant C", "http://z", 1, ⟨"Org3", "Daegu", "1yr"⟩⟩]))) =
      .ok ([⟨"Grant A", "http://x", 1, ⟨"Org", "Seoul", "2yr"⟩⟩,
            ⟨"Grant B", "http://y", 1, ⟨"Org2", "Busan", "3yr"⟩⟩,
            ⟨"Grant C", "http://z", 1, ⟨"Org3", "Daegu", "1yr"⟩⟩].take 2) :=
  (claim_C1_client_truncates "Seoul accelerator" 2 _ 200 "OK" _ rfl rfl).1

/-- C2 counterexample: on a fully successful invocation the handler
returns an envelope with no isError field at all, so the field does not
equal false as the claim states. -/
theorem claim_C2_counterexample :
    (handleCallTool ⟨"search_notices", [("query", ArgValue.str "q")]⟩
      (fun _ => .response 200 "OK" (.jsonOk (.arrOf [])))).isError ≠
      some false := by decide

/-- C2 amended: for every invocation of search_notices whose validation,
remote call, and formatting succeed, the handler returns an envelope
whose content is the single text block holding the formatted report and
which carries no isError field (it is absent, not set to false). -/
theorem claim_C2_success_envelope (args : List (String × ArgValue))
    (fetch : OutboundRequest → RemoteOutcome) (parsed : SearchRequest)
    (status : Nat) (statusText : String) (rs : List NoticeResult)
    (hparse : safeParse args = .ok parsed)
    (hresp : fetch (buildRequest parsed.query) =
      .response status statusText (.jsonOk (.arrOf rs)))
    (hok : respOk status = true) :
    handleCallTool ⟨"search_notices", args⟩ fetch =
      ⟨[⟨"text", formatResults (rs.take parsed.limit) parsed.query⟩], none⟩ := by
  simp [handleCallTool, runTool, hparse, searchNotices, searchAttempt, hresp,
    hok, jsTruthy, jsIsArray, jsGetArr, Except.mapError]

/-- C2 witness: a successful call with an empty remote result list. -/
theorem claim_C2_success_envelope_witness :
    handleCallTool ⟨"search_notices", [("query", ArgValue.str "q")]⟩
      (fun _ => .response 200 "OK" (.jsonOk (.arrOf []))) =
      ⟨[⟨"text", formatResults (([] : List NoticeResult).take 5) "q"⟩], none⟩ :=
  claim_C2_success_envelope [("query", ArgValue.str "q")] _ ⟨"q", 5⟩ 200 "OK" []
    rfl rfl rfl

/-- C3: every invocation yields either a success envelope or an error
envelope, and every error raised inside the handler — a validation
failure, a client or network failure, or an unrecognized tool name —
is caught and converted into an envelope with isError true whose single
text block is 오류: followed by the error message; for an unrecognized
tool the message names that tool.  The handler is a total function, so
no invocation error escapes it. -/
theorem claim_C3_error_envelope (req : CallRequest)
    (fetch : OutboundRequest → RemoteOutcome) :
    ((∃ text, handleCallTool req fetch = ⟨[⟨"text", text⟩], none⟩) ∨
      (∃ msg, handleCallTool req fetch =
        ⟨[⟨"text", "오류: " ++ msg⟩], some true⟩)) ∧
    (∀ e, runTool req fetch = .error e →
      handleCallTool req fetch =
        ⟨[⟨"text", "오류: " ++ e.message⟩], some true⟩) ∧
    (∀ issues, req.name = "search_notices" →
      safeParse req.args = .error issues →
      handleCallTool req fetch =
        ⟨[⟨"text", "오류: " ++ invalidArgsMsg issues⟩], some true⟩) ∧
    (∀ parsed e, req.name = "search_notices" →
      safeParse req.args = .ok parsed →
      searchNotices parsed.query parsed.limit fetch = .error e →
      handleCallTool req fetch =
        ⟨[⟨"text", "오류: " ++ e.message⟩], some true⟩) ∧
    (req.name ≠ "search_notices" →
      handleCallTool req fetch =
        ⟨[⟨"text", "오류: " ++ unknownToolMsg req.name⟩], some true⟩) := by
  have hconv : ∀ e, runTool req fetch = .error e →
      handleCallTool req fetch =
        ⟨[⟨"text", "오류: " ++ e.message⟩], some true⟩ := by
    intro e h
    simp [handleCallTool, h]
  refine ⟨?_, hconv, ?_, ?_, ?_⟩
  · cases h : runTool req fetch with
    | ok text => exact Or.inl ⟨text, by simp [handleCallTool, h]⟩
    | error e => exact Or.inr ⟨e.message, by simp [handleCallTool, h]⟩
  · intro issues hname hparse
    exact hconv ⟨"Error", invalidArgsMsg issues⟩ (by simp [runTool, hname, hparse])
  · intro parsed e hname hparse hsearch
    exact hconv e (by simp [runTool, hname, hparse, hsearch])
  · intro hne
    simp [handleCallTool, runTool, hne]

/-- C3 witness: an unrecognized tool name, a validation failure (empty
query), and a client failure (timeout) each produce the corresponding
error envelope rather than escaping. -/
theorem claim_C3_error_envelope_witness :
    handleCallTool ⟨"other_tool", []⟩ (fun _ => .fetchThrownValue "x") =
      ⟨[⟨"text", "오류: " ++ unknownToolMsg "other_tool"⟩], some true⟩ ∧
    handleCallTool ⟨"search_notices", [("query", ArgValue.str "")]⟩
        (fun _ => .fetchThrownValue "x") =
      ⟨[⟨"text", "오류: " ++
          invalidArgsMsg ["query: 검색어는 비워둘 수 없습니다"]⟩], some true⟩ ∧
    handleCallTool ⟨"search_notices", [("query", ArgValue.str "q")]⟩
        (fun _ => .fetchErr ⟨"AbortError", "aborted"⟩) =
      ⟨[⟨"text", "오류: " ++ timeoutMsg⟩], some true⟩ :=
  ⟨(claim_C3_error_envelope ⟨"other_tool", []⟩
      (fun _ => .fetchThrownValue "x")).2.2.2.2 (by decide),
   (claim_C3_error_envelope ⟨"search_notices", [("query", ArgValue.str "")]⟩
      (fun _ => .fetchThrownValue "x")).2.2.1
      ["query: 검색어는 비워둘 수 없습니다"] rfl rfl,
   (claim_C3_error_envelope ⟨"search_notices", [("query", ArgValue.str "q")]⟩
      (fun _ => .fetchErr ⟨"AbortError", "aborted"⟩)).2.2.2.1
      ⟨"q", 5⟩ ⟨"Error", timeoutMsg⟩ rfl rfl rfl⟩

/-- C4: the validator rejects limit 0, limit 51, any non-integer or
non-number limit, and an empty query; it accepts a string query of
length at least 1 with the limit absent (normalizing it to 5) or with an
integer limit in [1, 50], producing the normalized record. -/
theorem claim_C4_validator (args : List (String × ArgValue)) (q : String)
    (l : ℚ) :
    (lookupField args "limit" = some (ArgValue.num l) →
      l.den ≠ 1 ∨ l < 1 ∨ 50 < l →
      ∃ issues, safeParse args = .error issues) ∧
    (∀ v, lookupField args "limit" = some v → (∀ p, v ≠ ArgValue.num p) →
      ∃ issues, safeParse args = .error issues) ∧
    (lookupField args "query" = some (ArgValue.str "") →
      ∃ issues, safeParse args = .error issues) ∧
    (lookupField args "query" = some (ArgValue.str q) → 1 ≤ q.length →
      lookupField args "limit" = none →
      safeParse args = .ok ⟨q, 5⟩) ∧
    (lookupField args "query" = some (ArgValue.str q) → 1 ≤ q.length →
      lookupField args "limit" = some (ArgValue.num l) →
      l.den = 1 → 1 ≤ l → l ≤ 50 →
      safeParse args = .ok ⟨q, l.num.toNat⟩) := by
  refine ⟨?_, ?_, ?_, ?_, ?_⟩
  · intro hl hbad
    apply safeParse_error_of_issue
    rw [hl]
    rcases hbad with h | h | h <;> simp [limitIssues, h]
  · intro v hl hnv
    apply safeParse_error_of_issue
    rw [hl]
    cases v with
    | str s => simp [limitIssues]
    | num p => exact absurd rfl (hnv p)
    | other => simp [limitIssues]
  · intro hq
    apply safeParse_error_of_issue
    rw [hq]
    simp [queryIssues]
  · intro hq hlen hl
    have hq0 : q.length ≠ 0 := by omega
    rw [safeParse_eq, hq, hl]
    simp [queryIssues, limitIssues, queryString, limitValue, hq0]
  · intro hq hlen hl hden h1 h50
    have hq0 : q.length ≠ 0 := by omega
    have hnd : ¬ (l.den ≠ 1) := by simp [hden]
    have hn1 : ¬ (l < 1) := not_lt.mpr h1
    have hn50 : ¬ (50 < l) := not_lt.mpr h50
    rw [safeParse_eq, hq, hl]
    simp [queryIssues, limitIssues, queryString, limitValue, hq0, hnd, hn1, hn50]

/-- C4 witness: query x with integer limit 7 validates to the record. -/
theorem claim_C4_validator_witness :
    safeParse [("query", ArgValue.str "x"), ("limit", ArgValue.num 7)] =
      .ok ⟨"x", 7⟩ :=
  (claim_C4_validator [("query", ArgValue.str "x"), ("limit", ArgValue.num 7)]
    "x" 7).2.2.2.2 rfl (by decide) rfl rfl (by decide) (by decide)

/-- C5: formatResults agrees with the spec-side formatter everywhere: on
an empty list it is exactly the quoted-query no-result one-liner with no
header or divider; on a non-empty list it is the count header followed
by one block per result in input order (none skipped, reordered, or
deduplicated, as specBlocks is structurally one block per record and
keeps the length) joined by the divider; and a score of 0.873 renders
through toFixed1 as 87.3 with exactly one decimal digit. -/
theorem claim_C5_formatter (results : List NoticeResult) (query : String) :
    formatResults results query = formatResultsSpec results query ∧
    (results = [] → formatResults results query = noResultsMsg query) ∧
    (results ≠ [] → formatResults results query =
      headerLine results.length ++
        String.intercalate blockSep (specBlocks 1 results)) ∧
    (∀ n rs, (specBlocks n rs).length = rs.length) ∧
    toFixed1 ((0.873 : ℚ) * 100) = "87.3" := by
  have hmain : formatResults results query = formatResultsSpec results query := by
    cases results with
    | nil => rfl
    | cons r rest =>
      have hlen : (r :: rest).length ≠ 0 := by simp
      simp only [formatResults, formatResultsSpec, if_neg hlen]
      have he : (r :: rest).enum = List.enumFrom 0 (r :: rest) := rfl
      rw [he, enumFrom_map_renderBlock (r :: rest) 0]
  refine ⟨hmain, ?_, ?_, specBlocks_length, ?_⟩
  · intro h
    subst h
    rfl
  · intro h
    rw [hmain]
    cases results with
    | nil => exact absurd rfl h
    | cons r rest => rfl
  · have hneg : ¬ ((0.873 : ℚ) * 100 < 0) := by norm_num
    have hfl : ⌊((0.873 : ℚ) * 100 * 10 + 1 / 2)⌋ = (873 : ℤ) := by norm_num
    simp only [toFixed1, if_neg hneg, hfl]
    decide

/-- C5 witness: the empty result list for the query quantum widgets
renders as exactly the no-result one-liner. -/
theorem claim_C5_formatter_witness :
    formatResults [] "quantum widgets" = noResultsMsg "quantum widgets" :=
  (claim_C5_formatter [] "quantum widgets").2.1 rfl

/-- C6: on a 2xx response whose parsed body has no results field or
whose results field is not an array, searchNotices fails with the
malformed-response error and never returns a result list. -/
theorem claim_C6_malformed (query : String) (limit : Nat)
    (fetch : OutboundRequest → RemoteOutcome)
    (status : Nat) (statusText : String) (rv : ResultsField)
    (hresp : fetch (buildRequest query) = .response status statusText (.jsonOk rv))
    (hok : respOk status = true)
    (harr : jsIsArray rv = false) :
    searchNotices query limit fetch = .error ⟨"Error", malformedMsg⟩ := by
  simp [searchNotices, searchAttempt, hresp, hok, harr, applyCatch,
    Except.mapError]

/-- C6 witness: a body whose results field is the string not-an-array is
rejected as malformed, not treated as zero results. -/
theorem claim_C6_malformed_witness :
    searchNotices "q" 5
      (fun _ => .response 200 "OK" (.jsonOk (.str "not-an-array"))) =
      .error ⟨"Error", malformedMsg⟩ :=
  claim_C6_malformed "q" 5 _ 200 "OK" (.str "not-an-array") rfl rfl rfl

/-- C7: the request arms a 10000 ms cancellation timer, a call failing
by abort yields exactly the dedicated timeout message, and that message
differs from every status-error message, from the malformed-body
message, and from every wrapped-value message. -/
theorem claim_C7_timeout_mapping (query : String) (limit : Nat)
    (fetch : OutboundRequest → RemoteOutcome) (m : String)
    (habort : fetch (buildRequest query) = .fetchErr ⟨"AbortError", m⟩) :
    (buildRequest query).timeoutMs = 10000 ∧
    searchNotices query limit fetch = .error ⟨"Error", timeoutMsg⟩ ∧
    (∀ status statusText, timeoutMsg ≠ statusMsg status statusText) ∧
    timeoutMsg ≠ malformedMsg ∧
    (∀ s, timeoutMsg ≠ wrapMsg s) := by
  refine ⟨rfl, ?_, ?_, by decide, ?_⟩
  · simp [searchNotices, searchAttempt, habort, applyCatch, Except.mapError]
  · intro status statusText
    apply stringNeOfHeadNe
    rw [statusMsg_head]
    decide
  · intro s
    apply stringNeOfHeadNe
    rw [wrapMsg_head]
    decide

/-- C7 witness: an aborted fetch surfaces the timeout error. -/
theorem claim_C7_timeout_mapping_witness :
    searchNotices "q" 5 (fun _ => .fetchErr ⟨"AbortError", "aborted"⟩) =
      .error ⟨"Error", timeoutMsg⟩ :=
  (claim_C7_timeout_mapping "q" 5 _ "aborted" rfl).2.1

/-- C8: the one request the client issues is a POST to the fixed
endpoint whose JSON body holds exactly the query field and nothing else
(in particular no limit field), and the client observes the network only
through its answer to that single request. -/
theorem claim_C8_request_shape (query : String) (limit : Nat)
    (f g : OutboundRequest → RemoteOutcome)
    (hfg : f (buildRequest query) = g (buildRequest query)) :
    (buildRequest query).method = "POST" ∧
    (buildRequest query).url = "https://ai.start-hub.kr/search" ∧
    (buildRequest query).contentType = "application/json" ∧
    (buildRequest query).bodyFields = [("query", query)] ∧
    (buildRequest query).bodyFields.map Prod.fst = ["query"] ∧
    searchNotices query limit f = searchNotices query limit g := by
  refine ⟨rfl, rfl, rfl, rfl, rfl, ?_⟩
  simp [searchNotices, hfg]

/-- C8 witness: two networks agreeing on the fixed endpoint give the
client identical behavior, and the body is exactly the query field. -/
theorem claim_C8_request_shape_witness :
    (buildRequest "q").bodyFields = [("query", "q")] ∧
    searchNotices "q" 5 (fun _ => RemoteOutcome.fetchThrownValue "x") =
      searchNotices "q" 5
        (fun r => if r.url = "https://ai.start-hub.kr/search"
          then RemoteOutcome.fetchThrownValue "x"
          else RemoteOutcome.fetchErr ⟨"TypeError", "network down"⟩) :=
  ⟨(claim_C8_request_shape "q" 5 (fun _ => RemoteOutcome.fetchThrownValue "x")
      (fun r => if r.url = "https://ai.start-hub.kr/search"
        then RemoteOutcome.fetchThrownValue "x"
        else RemoteOutcome.fetchErr ⟨"TypeError", "network down"⟩) rfl).2.2.2.1,
   (claim_C8_request_shape "q" 5 (fun _ => RemoteOutcome.fetchThrownValue "x")
      (fun r => if r.url = "https://ai.start-hub.kr/search"
        then RemoteOutcome.fetchThrownValue "x"
        else RemoteOutcome.fetchErr ⟨"TypeError", "network down"⟩) rfl).2.2.2.2.2⟩

/-- C9 counterexample: a thrown non-Error value stringifying to boom
produces an error message carrying a prefix before the stringification,
so the message does not equal the stringification as the claim states. -/
theorem claim_C9_counterexample :
    searchNotices "q" 5 (fun _ => .fetchThrownValue "boom") =
      .error ⟨"Error", "공고 검색 중 오류 발생: boom"⟩ ∧
    "공고 검색 중 오류 발생: boom" ≠ "boom" :=
  ⟨rfl, by decide⟩

/-- C9 amended: a non-abort failure that is a recognizable error object
(from the fetch or from body parsing) is propagated unchanged with its
original message; any other thrown value raises an error whose message
is its stringification prefixed with 공고 검색 중 오류 발생:. -/
theorem claim_C9_passthrough (query : String) (limit : Nat)
    (fetch : OutboundRequest → RemoteOutcome) (e e2 : JsError) (s : String)
    (status : Nat) (statusText : String) :
    (fetch (buildRequest query) = .fetchErr e → e.name ≠ "AbortError" →
      searchNotices query limit fetch = .error e) ∧
    (fetch (buildRequest query) = .response status statusText (.jsonErr e2) →
      respOk status = true → e2.name ≠ "AbortError" →
      searchNotices query limit fetch = .error e2) ∧
    (fetch (buildRequest query) = .fetchThrownValue s →
      searchNotices query limit fetch = .error ⟨"Error", wrapMsg s⟩) := by
  refine ⟨?_, ?_, ?_⟩
  · intro h hn
    simp [searchNotices, searchAttempt, h, applyCatch, Except.mapError, hn]
  · intro h hok hn
    simp [searchNotices, searchAttempt, h, hok, applyCatch, Except.mapError, hn]
  · intro h
    simp [searchNotices, searchAttempt, h, applyCatch, Except.mapError]

/-- C9 witness: a network-level TypeError passes through unchanged. -/
theorem claim_C9_passthrough_witness :
    searchNotices "q" 5
      (fun _ => RemoteOutcome.fetchErr ⟨"TypeError", "fetch failed"⟩) =
      .error ⟨"TypeError", "fetch failed"⟩ :=
  (claim_C9_passthrough "q" 5 _ ⟨"TypeError", "fetch failed"⟩ ⟨"Error", ""⟩
    "" 200 "OK").1 rfl (by decide)

/-- C10: validation depends only on the query and limit fields, so any
additional unknown fields never cause a validation error and are
stripped: with a valid query and no limit field among the extras, the
result is exactly the normalized record, which carries nothing else. -/
theorem claim_C10_unknown_fields (args1 args2 : List (String × ArgValue))
    (q : String) (extra : List (String × ArgValue))
    (hq : lookupField args1 "query" = lookupField args2 "query")
    (hl : lookupField args1 "limit" = lookupField args2 "limit") :
    safeParse args1 = safeParse args2 ∧
    ((∀ p ∈ extra, p.1 ≠ "query" ∧ p.1 ≠ "limit") → 1 ≤ q.length →
      safeParse (("query", ArgValue.str q) :: extra) = .ok ⟨q, 5⟩) := by
  constructor
  · rw [safeParse_eq, safeParse_eq, hq, hl]
  · intro hextra hlen
    have hql : lookupField (("query", ArgValue.str q) :: extra) "query" =
        some (ArgValue.str q) := by
      simp [lookupField]
    have hll : lookupField (("query", ArgValue.str q) :: extra) "limit" =
        none := by
      have hne : ¬ (("query", ArgValue.str q) : String × ArgValue).1 = "limit" := by
        show ¬ ("query" : String) = "limit"
        decide
      simp only [lookupField, if_neg hne]
      exact lookupField_eq_none extra "limit" (fun p hp => (hextra p hp).2)
    have hq0 : q.length ≠ 0 := by omega
    rw [safeParse_eq, hql, hll]
    simp [queryIssues, limitIssues, queryString, limitValue, hq0]

/-- C10 witness: an unknown debug field is accepted and stripped. -/
theorem claim_C10_unknown_fields_witness :
    safeParse [("query", ArgValue.str "x"), ("debug", ArgValue.other)] =
      .ok ⟨"x", 5⟩ :=
  (claim_C10_unknown_fields [] [] "x" [("debug", ArgValue.other)] rfl rfl).2
    (by decide) (by decide)
